import Mathlib

/-
Verification of the HID Report descriptor module of lib_xua
(lib_xua/src/hid/xua_hid_report_descriptor.h and its unit tests in
tests/xua_unit_tests/src/test_hid.c).

The public interface, its constants and its status codes are taken from
xua_hid_report_descriptor.h.  The implementation file and the
device-specific configuration (hid_report_descriptor.h with the
hidConfigurableItems table) are not part of the available sources, so the
state machine behind the interface is modelled from the specification,
with the constants and concrete behaviours pinned by the unit tests.
-/

namespace XuaHid

/-! ## Constants from xua_hid_report_descriptor.h -/

def HID_REPORT_ITEM_HDR_SIZE_MASK : Nat := 0x03
def HID_REPORT_ITEM_HDR_SIZE_SHIFT : Nat := 0

def HID_REPORT_ITEM_HDR_TAG_MASK : Nat := 0xF0
def HID_REPORT_ITEM_HDR_TAG_SHIFT : Nat := 4

def HID_REPORT_ITEM_HDR_TYPE_MASK : Nat := 0x0C
def HID_REPORT_ITEM_HDR_TYPE_SHIFT : Nat := 2

def HID_REPORT_ITEM_LOC_BIT_MASK : Nat := 0x70
def HID_REPORT_ITEM_LOC_BIT_SHIFT : Nat := 4

def HID_REPORT_ITEM_LOC_BYTE_MASK : Nat := 0x0F
def HID_REPORT_ITEM_LOC_BYTE_SHIFT : Nat := 0

def HID_REPORT_ITEM_MAX_SIZE : Nat := 2

def HID_REPORT_ITEM_USAGE_TAG : Nat := 0
def HID_REPORT_ITEM_USAGE_TYPE : Nat := 2

def HID_STATUS_GOOD : Nat := 0
def HID_STATUS_BAD_HEADER : Nat := 1
def HID_STATUS_BAD_LOCATION : Nat := 2
def HID_STATUS_BAD_PAGE : Nat := 3
def HID_STATUS_IN_USE : Nat := 4

/-! Item type codes, as defined in test_hid.c. -/

def HID_REPORT_ITEM_TYPE_GLOBAL : Nat := 0x01
def HID_REPORT_ITEM_TYPE_LOCAL : Nat := 0x02
def HID_REPORT_ITEM_TYPE_MAIN : Nat := 0x00
def HID_REPORT_ITEM_TYPE_RESERVED : Nat := 0x03

/-! ## Item codec -/

/-- Decode the bSize field of an item header: bits 0:1. -/
def itemSize (header : Nat) : Nat :=
  (header &&& HID_REPORT_ITEM_HDR_SIZE_MASK) >>> HID_REPORT_ITEM_HDR_SIZE_SHIFT

/-- Decode the bType field of an item header: bits 2:3. -/
def itemType (header : Nat) : Nat :=
  (header &&& HID_REPORT_ITEM_HDR_TYPE_MASK) >>> HID_REPORT_ITEM_HDR_TYPE_SHIFT

/-- Decode the bTag field of an item header: bits 4:7. -/
def itemTag (header : Nat) : Nat :=
  (header &&& HID_REPORT_ITEM_HDR_TAG_MASK) >>> HID_REPORT_ITEM_HDR_TAG_SHIFT

/-- Modelled from the spec: validate_usage_item, the header check applied by
hidSetReportItem (implementation file not in the sources).  A header is
acceptable only for a Usage item: the size field must not exceed
HID_REPORT_ITEM_MAX_SIZE, the tag must be the Usage tag and the type must be
the Usage (Local) type.  Each failing condition alone causes rejection, as
pinned by the unit tests test_bad_tag_hidSetReportItem (bad tag, good type)
and test_global_type_hidSetReportItem (good tag, bad type), which both
expect HID_STATUS_BAD_HEADER. -/
def hidIsUsageHeaderOK (header : Nat) : Bool :=
  decide (itemSize header ≤ HID_REPORT_ITEM_MAX_SIZE) &&
  (itemTag header == HID_REPORT_ITEM_USAGE_TAG) &&
  (itemType header == HID_REPORT_ITEM_USAGE_TYPE)

/-- Encode a Usage item header with the given size field, as the unit tests
build one (construct_usage_header in test_hid.c). -/
def construct_usage_header (size : Nat) : Nat :=
  (((HID_REPORT_ITEM_USAGE_TAG <<< HID_REPORT_ITEM_HDR_TAG_SHIFT) &&& HID_REPORT_ITEM_HDR_TAG_MASK) |||
   ((HID_REPORT_ITEM_USAGE_TYPE <<< HID_REPORT_ITEM_HDR_TYPE_SHIFT) &&& HID_REPORT_ITEM_HDR_TYPE_MASK)) |||
  ((size <<< HID_REPORT_ITEM_HDR_SIZE_SHIFT) &&& HID_REPORT_ITEM_HDR_SIZE_MASK)

/-! ## Data model -/

/-- USB HID Report descriptor Short Item (struct USB_HID_Short_Item_t in
xua_hid_report_descriptor.h): a one byte header, a two byte data array and a
packed location byte (iByte bits 0:3, iBit bits 4:6, bit 7 reserved).
The bSize field of the header indicates which data bytes are in use; unused
trailing data bytes are don't-care. -/
structure USB_HID_Short_Item_t where
  header : Nat
  data0 : Nat
  data1 : Nat
  location : Nat
deriving DecidableEq

/-- Modelled from the spec: one entry of the Control Registry (the
hidConfigurableItems table of the device-specific hid_report_descriptor.h,
not in the sources): an exact (byte, bit) location, the Usage Page allowed
at that location, and the index of the backing item in the descriptor's
item sequence. -/
structure HidRegEntry where
  byte : Nat
  bit : Nat
  page : Nat
  slot : Nat
deriving DecidableEq

/-- Modelled from the spec: the observable state of the Descriptor State
Machine: the ordered item sequence, the Prepared flag, the flattened
descriptor buffer and report length computed by the last prepare, and the
exclusivity flag guarding set-operations. -/
structure HidState where
  items : List USB_HID_Short_Item_t
  prepared : Bool
  buffer : List Nat
  reportLen : Nat
  inUse : Bool
deriving DecidableEq

/-- Modelled from the spec: the initial state: not prepared, no flattened
buffer, idle, holding the externally supplied item sequence. -/
def hidInitState (items : List USB_HID_Short_Item_t) : HidState :=
  { items := items, prepared := false, buffer := [], reportLen := 0, inUse := false }

/-- Result of hidGetReportItem: the returned status together with the final
values of the four output parameters (page, header, data[0], data[1]). -/
structure HidGetResult where
  status : Nat
  page : Nat
  header : Nat
  data0 : Nat
  data1 : Nat
deriving DecidableEq

/-! ## Control Registry lookup -/

/-- Modelled from the spec: registry lookup, exact on (byte, bit); returns
none for every position not enumerated in the registry, whether outside the
4-bit/3-bit representable range or within range but not configurable. -/
def hidFindEntry (reg : List HidRegEntry) (byte bit : Nat) : Option HidRegEntry :=
  reg.find? (fun e => e.byte == byte && e.bit == bit)

/-! ## Descriptor State Machine operations -/

/-- Modelled from the spec: hidResetReportDescriptor clears the Prepared
flag and releases the flattened buffer. -/
def hidResetReportDescriptor (s : HidState) : HidState :=
  { s with prepared := false, buffer := [], reportLen := 0 }

/-- Modelled from the spec: flatten one Short Item to its wire format:
the header byte followed by the data bytes the size field covers. -/
def flattenItem (it : USB_HID_Short_Item_t) : List Nat :=
  it.header :: List.take (itemSize it.header) [it.data0, it.data1]

/-- Modelled from the spec: flatten the item sequence in declaration order
with no padding. -/
def hidFlatten : List USB_HID_Short_Item_t → List Nat
  | [] => []
  | it :: rest => flattenItem it ++ hidFlatten rest

/-- Modelled from the spec: the bit-width contributions to the report
length, accumulated from the Main items' size fields (spec section 4.3; the
exact algorithm is an open question of the spec, which directs rounding the
accumulated bit widths up to whole bytes at the end). -/
def hidMainBits : List USB_HID_Short_Item_t → Nat
  | [] => 0
  | it :: rest =>
      (if itemType it.header = HID_REPORT_ITEM_TYPE_MAIN then itemSize it.header else 0) +
      hidMainBits rest

/-- Modelled from the spec: hidPrepareReportDescriptor scans the current
item sequence, flattens it into the descriptor buffer, recomputes the
report length (Main item bit widths rounded up to whole bytes) and sets the
Prepared flag.  It always succeeds and has no return status. -/
def hidPrepareReportDescriptor (s : HidState) : HidState :=
  { s with prepared := true,
           buffer := hidFlatten s.items,
           reportLen := (hidMainBits s.items + 7) / 8 }

/-- Modelled from the spec: hidGetReportDescriptor returns null (none) when
the descriptor has not been prepared, and a pointer to the flattened buffer
when it has. -/
def hidGetReportDescriptor (s : HidState) : Option (List Nat) :=
  if s.prepared then some s.buffer else none

/-- Modelled from the spec: hidGetReportDescriptorLength returns zero when
the descriptor has not been prepared, and the flattened byte count when it
has. -/
def hidGetReportDescriptorLength (s : HidState) : Nat :=
  if s.prepared then s.buffer.length else 0

/-- Modelled from the spec: hidGetReportLength returns zero when the
descriptor has not been prepared, and the computed report length when it
has. -/
def hidGetReportLength (s : HidState) : Nat :=
  if s.prepared then s.reportLen else 0

/-- Modelled from the spec: hidGetReportItem looks the location up in the
registry; if absent it returns HID_STATUS_BAD_LOCATION and leaves the
output parameters untouched (they keep the caller-supplied values); if
present it copies the item's current Usage Page, header byte and both data
bytes into the outputs and returns HID_STATUS_GOOD. -/
def hidGetReportItem (reg : List HidRegEntry) (s : HidState) (byte bit : Nat)
    (page header data0 data1 : Nat) : HidGetResult :=
  match hidFindEntry reg byte bit with
  | none => ⟨HID_STATUS_BAD_LOCATION, page, header, data0, data1⟩
  | some e =>
      let it := s.items.getD e.slot ⟨0, 0, 0, 0⟩
      ⟨HID_STATUS_GOOD, e.page, it.header, it.data0, it.data1⟩

/-- Modelled from the spec: the successful write performed by
hidSetReportItem: store the given header into the backing item of the given
slot and copy in the data bytes the header's size field covers; data bytes
beyond the size field are don't-care and keep their stored values, and the
item's location byte is untouched. -/
def hidWriteItem (s : HidState) (slot : Nat) (header : Nat) (data : List Nat) : HidState :=
  let old := s.items.getD slot ⟨0, 0, 0, 0⟩
  let n := itemSize header
  let newItem : USB_HID_Short_Item_t :=
    { header := header,
      data0 := if 0 < n then data.getD 0 0 else old.data0,
      data1 := if 1 < n then data.getD 1 0 else old.data1,
      location := old.location }
  { s with items := s.items.set slot newItem }

/-- Modelled from the spec: hidSetReportItem, with its checks evaluated in
the spec's order, the first failing check winning: header validation first
(BAD_HEADER), then registry lookup (BAD_LOCATION), then Usage Page
comparison (BAD_PAGE), then the exclusivity guard (IN_USE).  On success it
writes the header and the covered data bytes into the registry slot's
backing item; a NULL data argument is modelled as the empty list and is
valid with a size-0 header. -/
def hidSetReportItem (reg : List HidRegEntry) (s : HidState) (byte bit : Nat)
    (page header : Nat) (data : List Nat) : Nat × HidState :=
  if hidIsUsageHeaderOK header = false then (HID_STATUS_BAD_HEADER, s)
  else
    match hidFindEntry reg byte bit with
    | none => (HID_STATUS_BAD_LOCATION, s)
    | some e =>
        if page ≠ e.page then (HID_STATUS_BAD_PAGE, s)
        else if s.inUse then (HID_STATUS_IN_USE, s)
        else (HID_STATUS_GOOD, hidWriteItem s e.slot header data)

/-! ## Concrete device configuration

The device-specific hid_report_descriptor.h supplying the initial item
sequence and the hidConfigurableItems table is not in the sources; the
instance below is modelled from the values the unit tests observe:
MIN_VALID_BYTE = 0, MIN_VALID_BIT = 0, MAX_VALID_BYTE = 1,
MAX_VALID_BIT = 7 (only byte 1 has bit 7 configurable), all configurable
items on the Consumer Control page 0x0C, the item at (0,0) holding usage
0xE2 and the item at (1,7) holding usage 0xEA, the location (0,7) not
configurable, and the location (1,2) registered per the spec's concrete
scenario. -/

def CONSUMER_CONTROL_PAGE : Nat := 0x0C
def LOUDNESS_CONTROL : Nat := 0xE7

def MIN_VALID_BYTE : Nat := 0
def MIN_VALID_BIT : Nat := 0
def MAX_VALID_BYTE : Nat := 1
def MAX_VALID_BIT : Nat := 7

/-- Modelled from the spec: the externally supplied initial item sequence:
a Usage Page (Consumer) Global item, one Usage (Local) item per
configurable control, an Input Main item and an End Collection Main item. -/
def hidReportDescriptorItems : List USB_HID_Short_Item_t :=
  [ ⟨0x05, 0x0C, 0x00, 0x00⟩,
    ⟨0x09, 0xE2, 0x00, 0x00⟩,
    ⟨0x09, 0xE9, 0x00, 0x01⟩,
    ⟨0x09, 0xCD, 0x00, 0x21⟩,
    ⟨0x09, 0xEA, 0x00, 0x71⟩,
    ⟨0x81, 0x02, 0x00, 0x00⟩,
    ⟨0xC0, 0x00, 0x00, 0x00⟩ ]

/-- Modelled from the spec: the hidConfigurableItems table, mapping each
configurable (byte, bit) location to its allowed Usage Page and the slot of
its backing item. -/
def hidConfigurableItems : List HidRegEntry :=
  [ ⟨0, 0, CONSUMER_CONTROL_PAGE, 1⟩,
    ⟨1, 0, CONSUMER_CONTROL_PAGE, 2⟩,
    ⟨1, 2, CONSUMER_CONTROL_PAGE, 3⟩,
    ⟨1, 7, CONSUMER_CONTROL_PAGE, 4⟩ ]

/-- The initial state of the concrete device configuration. -/
def hidTestInit : HidState := hidInitState hidReportDescriptorItems

/-! ## Helper lemmas -/

/-- Reading back the element just written by List.set. -/
theorem hid_getD_set_self {α : Type} (l : List α) (n : Nat) (a d : α)
    (h : n < l.length) : (l.set n a).getD n d = a := by
  rw [List.getD_eq_getElem?_getD, List.getElem?_set_self h]
  rfl

/-- A successful registry lookup returns an entry of the registry whose
location fields match the lookup arguments exactly. -/
theorem hidFindEntry_spec {reg : List HidRegEntry} {byte bit : Nat} {e : HidRegEntry}
    (h : hidFindEntry reg byte bit = some e) :
    e ∈ reg ∧ e.byte = byte ∧ e.bit = bit := by
  refine ⟨List.mem_of_find?_eq_some h, ?_, ?_⟩ <;>
    · have hp := List.find?_some h
      simp only [Bool.and_eq_true, beq_iff_eq] at hp
      tauto

/-- A size field of 3 fails the Usage header validation. -/
theorem hidIsUsageHeaderOK_size3 (header : Nat) (h : itemSize header = 3) :
    hidIsUsageHeaderOK header = false := by
  unfold hidIsUsageHeaderOK
  rw [h]
  rfl

/-- The Usage header validation accepts exactly the headers with size at
most 2, the Usage tag and the Usage (Local) type. -/
theorem hidIsUsageHeaderOK_true_iff (header : Nat) :
    hidIsUsageHeaderOK header = true ↔
      (itemSize header ≤ HID_REPORT_ITEM_MAX_SIZE ∧
       itemTag header = HID_REPORT_ITEM_USAGE_TAG ∧
       itemType header = HID_REPORT_ITEM_USAGE_TYPE) := by
  simp [hidIsUsageHeaderOK, Bool.and_eq_true, and_assoc]

/-- The Usage header validation fails exactly when the size field exceeds 2,
or the tag is not the Usage tag, or the type is not the Usage type. -/
theorem hidIsUsageHeaderOK_false_iff (header : Nat) :
    hidIsUsageHeaderOK header = false ↔
      (HID_REPORT_ITEM_MAX_SIZE < itemSize header ∨
       itemTag header ≠ HID_REPORT_ITEM_USAGE_TAG ∨
       itemType header ≠ HID_REPORT_ITEM_USAGE_TYPE) := by
  rw [Bool.eq_false_iff, ne_eq, hidIsUsageHeaderOK_true_iff]
  push_neg
  constructor
  · intro h
    by_cases hs : itemSize header ≤ HID_REPORT_ITEM_MAX_SIZE
    · by_cases ht : itemTag header = HID_REPORT_ITEM_USAGE_TAG
      · exact Or.inr (Or.inr (h hs ht))
      · exact Or.inr (Or.inl ht)
    · exact Or.inl (Nat.lt_of_not_le hs)
  · intro h hs ht
    rcases h with h | h | h
    · exact absurd hs (Nat.not_le_of_lt h)
    · exact absurd ht h
    · exact h

/-- hidSetReportItem returns BAD_HEADER exactly when the header fails the
Usage header validation, independently of every other argument. -/
theorem hidSetReportItem_bad_header_iff
    (reg : List HidRegEntry) (s : HidState) (byte bit page header : Nat)
    (data : List Nat) :
    (hidSetReportItem reg s byte bit page header data).1 = HID_STATUS_BAD_HEADER ↔
      hidIsUsageHeaderOK header = false := by
  unfold hidSetReportItem
  by_cases hok : hidIsUsageHeaderOK header = false
  · simp [hok]
  · rw [if_neg hok]
    cases hfind : hidFindEntry reg byte bit with
    | none => simp [hok, HID_STATUS_BAD_LOCATION, HID_STATUS_BAD_HEADER]
    | some e =>
        by_cases hpage : page ≠ e.page
        · simp [hpage, hok, HID_STATUS_BAD_PAGE, HID_STATUS_BAD_HEADER]
        · by_cases huse : s.inUse
          · simp [hpage, huse, hok, HID_STATUS_IN_USE, HID_STATUS_BAD_HEADER]
          · simp [hpage, huse, hok, HID_STATUS_GOOD, HID_STATUS_BAD_HEADER]

/-! ## Claim theorems -/

/-- C2: hidSetReportItem evaluates its failure checks in a fixed order with
the first failing check winning: an invalid header yields BAD_HEADER
regardless of location (in particular a size field of 3 always yields
BAD_HEADER), a valid header with an invalid location yields BAD_LOCATION
for every page, and BAD_PAGE is returned only when the location is valid. -/
theorem hidSetReportItem_check_order
    (reg : List HidRegEntry) (s : HidState) (byte bit page header : Nat)
    (data : List Nat) :
    (hidIsUsageHeaderOK header = false →
      (hidSetReportItem reg s byte bit page header data).1 = HID_STATUS_BAD_HEADER)
    ∧ (itemSize header = 3 →
      (hidSetReportItem reg s byte bit page header data).1 = HID_STATUS_BAD_HEADER)
    ∧ (hidIsUsageHeaderOK header = true → hidFindEntry reg byte bit = none →
      (hidSetReportItem reg s byte bit page header data).1 = HID_STATUS_BAD_LOCATION)
    ∧ ((hidSetReportItem reg s byte bit page header data).1 = HID_STATUS_BAD_PAGE →
      (hidFindEntry reg byte bit).isSome = true) := by
  refine ⟨?_, ?_, ?_, ?_⟩
  · intro h
    unfold hidSetReportItem
    rw [if_pos h]
  · intro h
    unfold hidSetReportItem
    rw [if_pos (hidIsUsageHeaderOK_size3 header h)]
  · intro hok hfind
    unfold hidSetReportItem
    rw [if_neg (by simp [hok]), hfind]
  · intro h
    unfold hidSetReportItem at h
    by_cases hok : hidIsUsageHeaderOK header = false
    · rw [if_pos hok] at h
      simp [HID_STATUS_BAD_HEADER, HID_STATUS_BAD_PAGE] at h
    · rw [if_neg hok] at h
      cases hfind : hidFindEntry reg byte bit with
      | none =>
          rw [hfind] at h
          simp [HID_STATUS_BAD_LOCATION, HID_STATUS_BAD_PAGE] at h
      | some e => simp [hfind]

/-- Witness for C2 at concrete inputs: at (0, 0) the size-3 Usage header 0x0B
is rejected with BAD_HEADER, and at the non-configurable location (0, 7) a
valid size-0 Usage header is rejected with BAD_LOCATION. -/
theorem hidSetReportItem_check_order_witness :
    (hidSetReportItem hidConfigurableItems hidTestInit 0 0 12 11 []).1
        = HID_STATUS_BAD_HEADER ∧
    (hidSetReportItem hidConfigurableItems hidTestInit 0 7 12 8 []).1
        = HID_STATUS_BAD_LOCATION :=
  ⟨(hidSetReportItem_check_order hidConfigurableItems hidTestInit 0 0 12 11 []).2.1
      (by decide),
   (hidSetReportItem_check_order hidConfigurableItems hidTestInit 0 7 12 8 []).2.2.1
      (by decide) (by decide)⟩

/-- C3 counterexample: the header 0xF8 (size 0, type Local, tag 0xF) has a tag
different from the Usage tag but a type equal to the Usage (Local) type, so a
characterization rejecting only the headers with size > 2, or with tag AND
type both different from the Usage ones, would accept it; hidSetReportItem
nevertheless rejects it with BAD_HEADER, exactly as the unit test
test_bad_tag_hidSetReportItem expects. -/
theorem hid_header_conjunction_counterexample :
    (hidSetReportItem hidConfigurableItems hidTestInit 0 0 CONSUMER_CONTROL_PAGE 0xF8 []).1
        = HID_STATUS_BAD_HEADER ∧
    ¬ (HID_REPORT_ITEM_MAX_SIZE < itemSize 0xF8 ∨
       (itemTag 0xF8 ≠ HID_REPORT_ITEM_USAGE_TAG ∧
        itemType 0xF8 ≠ HID_REPORT_ITEM_USAGE_TYPE)) := by
  decide

/-- C3 (amended): the header validation applied by hidSetReportItem rejects
with BAD_HEADER exactly the headers whose size field exceeds 2, or whose tag
differs from the Usage tag, or whose type differs from the Usage (Local)
type — any one failing condition alone suffices; in particular a header of
type Global, Main, or Reserved always returns BAD_HEADER, and a header of
type Local with the Usage tag and a size of at most 2 passes header
validation (succeeding subject to the location and page checks). -/
theorem hidSetReportItem_header_validation
    (reg : List HidRegEntry) (s : HidState) (byte bit page header : Nat)
    (data : List Nat) :
    ((hidSetReportItem reg s byte bit page header data).1 = HID_STATUS_BAD_HEADER ↔
      (HID_REPORT_ITEM_MAX_SIZE < itemSize header ∨
       itemTag header ≠ HID_REPORT_ITEM_USAGE_TAG ∨
       itemType header ≠ HID_REPORT_ITEM_USAGE_TYPE))
    ∧ (itemType header = HID_REPORT_ITEM_TYPE_GLOBAL ∨
       itemType header = HID_REPORT_ITEM_TYPE_MAIN ∨
       itemType header = HID_REPORT_ITEM_TYPE_RESERVED →
      (hidSetReportItem reg s byte bit page header data).1 = HID_STATUS_BAD_HEADER)
    ∧ (itemTag header = HID_REPORT_ITEM_USAGE_TAG →
       itemType header = HID_REPORT_ITEM_USAGE_TYPE →
       itemSize header ≤ HID_REPORT_ITEM_MAX_SIZE →
      (hidSetReportItem reg s byte bit page header data).1 ≠ HID_STATUS_BAD_HEADER) := by
  have hiff := (hidSetReportItem_bad_header_iff reg s byte bit page header data).trans
    (hidIsUsageHeaderOK_false_iff header)
  refine ⟨hiff, ?_, ?_⟩
  · intro h
    refine hiff.mpr (Or.inr (Or.inr ?_))
    rcases h with h | h | h <;> rw [h] <;> decide
  · intro ht hty hs
    rw [ne_eq, hiff]
    push_neg
    exact ⟨hs, ht, hty⟩

/-- Witness for C3 (amended) at concrete inputs: the Global-type header 0x04
is rejected with BAD_HEADER, and the size-0 Local Usage header 0x08 at the
configurable location (0, 0) with the matching page is not rejected by the
header check (the call returns GOOD). -/
theorem hidSetReportItem_header_validation_witness :
    (hidSetReportItem hidConfigurableItems hidTestInit 0 0 12 4 []).1
        = HID_STATUS_BAD_HEADER ∧
    (hidSetReportItem hidConfigurableItems hidTestInit 0 0 12 8 []).1
        ≠ HID_STATUS_BAD_HEADER :=
  ⟨(hidSetReportItem_header_validation hidConfigurableItems hidTestInit 0 0 12 4 []).2.1
      (by decide),
   (hidSetReportItem_header_validation hidConfigurableItems hidTestInit 0 0 12 8 []).2.2
      (by decide) (by decide) (by decide)⟩

/-- C4 counterexample: the location (0, 7) is not enumerated in the Control
Registry, yet hidSetReportItem with the malformed header 0x0B (size 3) there
returns BAD_HEADER, not BAD_LOCATION: the result at an unregistered location
is not BAD_LOCATION for ALL values of the other arguments, because the header
check runs first. -/
theorem hid_unregistered_location_counterexample :
    hidFindEntry hidConfigurableItems 0 7 = none ∧
    (hidSetReportItem hidConfigurableItems hidTestInit 0 7 CONSUMER_CONTROL_PAGE 11 []).1
        = HID_STATUS_BAD_HEADER ∧
    HID_STATUS_BAD_HEADER ≠ HID_STATUS_BAD_LOCATION := by
  decide

/-- C4 (amended): for every (byte, bit) pair not enumerated in the Control
Registry — outside the representable range or in range but not declared
configurable — hidGetReportItem returns BAD_LOCATION for all values of the
other arguments, and hidSetReportItem returns BAD_LOCATION for all values of
page and data provided the header passes the Usage header validation (an
invalid header yields BAD_HEADER first). -/
theorem hid_unregistered_location_bad
    (reg : List HidRegEntry) (s : HidState) (byte bit : Nat)
    (p0 h0 d0 d1 page header : Nat) (data : List Nat)
    (hfind : hidFindEntry reg byte bit = none) :
    (hidGetReportItem reg s byte bit p0 h0 d0 d1).status = HID_STATUS_BAD_LOCATION
    ∧ (hidIsUsageHeaderOK header = true →
      (hidSetReportItem reg s byte bit page header data).1 = HID_STATUS_BAD_LOCATION) := by
  constructor
  · unfold hidGetReportItem
    rw [hfind]
  · intro hok
    unfold hidSetReportItem
    rw [if_neg (by simp [hok]), hfind]

/-- Witness for C4 (amended) at the concrete unregistered location (0, 7). -/
theorem hid_unregistered_location_bad_witness :
    (hidGetReportItem hidConfigurableItems hidTestInit 0 7 68 170 186 209).status
        = HID_STATUS_BAD_LOCATION ∧
    (hidSetReportItem hidConfigurableItems hidTestInit 0 7 12 8 []).1
        = HID_STATUS_BAD_LOCATION :=
  ⟨(hid_unregistered_location_bad hidConfigurableItems hidTestInit 0 7 68 170 186 209 12 8 []
      (by decide)).1,
   (hid_unregistered_location_bad hidConfigurableItems hidTestInit 0 7 68 170 186 209 12 8 []
      (by decide)).2 (by decide)⟩

/-- Inversion of a successful hidSetReportItem call: the header passed
validation, the registry lookup found an entry, the page matched, the
descriptor was idle, and the resulting state is the write into the found
entry's slot. -/
theorem hidSetReportItem_good_inv
    (reg : List HidRegEntry) (s : HidState) (byte bit page header : Nat)
    (data : List Nat)
    (hset : (hidSetReportItem reg s byte bit page header data).1 = HID_STATUS_GOOD) :
    hidIsUsageHeaderOK header = true ∧
    ∃ e, hidFindEntry reg byte bit = some e ∧ page = e.page ∧ s.inUse = false ∧
      (hidSetReportItem reg s byte bit page header data).2
        = hidWriteItem s e.slot header data := by
  unfold hidSetReportItem at hset
  split at hset
  next hok => simp [HID_STATUS_BAD_HEADER, HID_STATUS_GOOD] at hset
  next hok =>
    have hok2 : hidIsUsageHeaderOK header = true := by
      cases hh : hidIsUsageHeaderOK header
      · exact absurd hh hok
      · rfl
    split at hset
    next hfind => simp [HID_STATUS_BAD_LOCATION, HID_STATUS_GOOD] at hset
    next e hfind =>
      split at hset
      next hpage => simp [HID_STATUS_BAD_PAGE, HID_STATUS_GOOD] at hset
      next hpage =>
        split at hset
        next huse => simp [HID_STATUS_IN_USE, HID_STATUS_GOOD] at hset
        next huse =>
          have huse2 : s.inUse = false := by
            cases hu : s.inUse
            · rfl
            · exact absurd hu huse
          refine ⟨hok2, e, hfind, not_not.mp hpage, huse2, ?_⟩
          unfold hidSetReportItem
          rw [if_neg hok, hfind]
          simp [not_not.mp hpage, huse2]

/-- The items field after a write: the backing item at the written slot is
replaced, with the data bytes beyond the header's size field and the
location byte kept. -/
theorem hidWriteItem_items (s : HidState) (slot header : Nat) (data : List Nat) :
    (hidWriteItem s slot header data).items = s.items.set slot
      ⟨header,
       if 0 < itemSize header then data.getD 0 0 else (s.items.getD slot ⟨0, 0, 0, 0⟩).data0,
       if 1 < itemSize header then data.getD 1 0 else (s.items.getD slot ⟨0, 0, 0, 0⟩).data1,
       (s.items.getD slot ⟨0, 0, 0, 0⟩).location⟩ := rfl

/-- hidGetReportItem at a registered location returns GOOD together with the
entry's Usage Page and the stored header and both stored data bytes of the
backing item. -/
theorem hidGetReportItem_found
    (reg : List HidRegEntry) (s : HidState) (byte bit p0 h0 d0 d1 : Nat)
    (e : HidRegEntry) (hfind : hidFindEntry reg byte bit = some e) :
    hidGetReportItem reg s byte bit p0 h0 d0 d1 =
      ⟨HID_STATUS_GOOD, e.page, (s.items.getD e.slot ⟨0, 0, 0, 0⟩).header,
       (s.items.getD e.slot ⟨0, 0, 0, 0⟩).data0,
       (s.items.getD e.slot ⟨0, 0, 0, 0⟩).data1⟩ := by
  unfold hidGetReportItem
  rw [hfind]

/-- C1: for every (byte, bit) location present in the Control Registry, after
a hidSetReportItem call at that location that returns GOOD, a subsequent
hidGetReportItem at the same location returns GOOD and writes back exactly
the page, the header and the data bytes covered by the header's size field
that the set call wrote (round-trip of set then get at the same location).
The registry is assumed well formed: every entry's slot indexes into the
item sequence. -/
theorem hid_set_get_round_trip
    (reg : List HidRegEntry) (s : HidState) (byte bit page header : Nat)
    (data : List Nat) (p0 h0 d0 d1 : Nat)
    (wf : ∀ e ∈ reg, e.slot < s.items.length)
    (hset : (hidSetReportItem reg s byte bit page header data).1 = HID_STATUS_GOOD) :
    (hidGetReportItem reg (hidSetReportItem reg s byte bit page header data).2
        byte bit p0 h0 d0 d1).status = HID_STATUS_GOOD
    ∧ (hidGetReportItem reg (hidSetReportItem reg s byte bit page header data).2
        byte bit p0 h0 d0 d1).page = page
    ∧ (hidGetReportItem reg (hidSetReportItem reg s byte bit page header data).2
        byte bit p0 h0 d0 d1).header = header
    ∧ (0 < itemSize header →
        (hidGetReportItem reg (hidSetReportItem reg s byte bit page header data).2
          byte bit p0 h0 d0 d1).data0 = data.getD 0 0)
    ∧ (1 < itemSize header →
        (hidGetReportItem reg (hidSetReportItem reg s byte bit page header data).2
          byte bit p0 h0 d0 d1).data1 = data.getD 1 0) := by
  obtain ⟨hok, e, hfind, hpage, huse, hstate⟩ :=
    hidSetReportItem_good_inv reg s byte bit page header data hset
  have hslot : e.slot < s.items.length := wf e (hidFindEntry_spec hfind).1
  rw [hstate,
    hidGetReportItem_found reg (hidWriteItem s e.slot header data) byte bit p0 h0 d0 d1 e hfind,
    hidWriteItem_items, hid_getD_set_self s.items e.slot _ _ hslot]
  refine ⟨rfl, hpage.symm, rfl, fun hpos => ?_, fun hpos => ?_⟩ <;> simp [hpos]

/-- Witness for C1 at the spec's concrete scenario: location (1, 2) on the
Consumer Control page 0x0C, a size-1 Usage header 0x09 and the Loudness
control 0xE7 as data. -/
theorem hid_set_get_round_trip_witness :
    (hidGetReportItem hidConfigurableItems
        (hidSetReportItem hidConfigurableItems hidTestInit 1 2 12 9 [231]).2
        1 2 255 255 255 255).status = HID_STATUS_GOOD
    ∧ (hidGetReportItem hidConfigurableItems
        (hidSetReportItem hidConfigurableItems hidTestInit 1 2 12 9 [231]).2
        1 2 255 255 255 255).page = 12
    ∧ (hidGetReportItem hidConfigurableItems
        (hidSetReportItem hidConfigurableItems hidTestInit 1 2 12 9 [231]).2
        1 2 255 255 255 255).header = 9
    ∧ (hidGetReportItem hidConfigurableItems
        (hidSetReportItem hidConfigurableItems hidTestInit 1 2 12 9 [231]).2
        1 2 255 255 255 255).data0 = [231].getD 0 0 := by
  have h := hid_set_get_round_trip hidConfigurableItems hidTestInit 1 2 12 9 [231]
    255 255 255 255 (by decide) (by decide)
  exact ⟨h.1, h.2.1, h.2.2.1, h.2.2.2.1 (by decide)⟩

/-- Positivity of the flattened descriptor length: every item contributes at
least its header byte. -/
theorem hidFlatten_length_pos (l : List USB_HID_Short_Item_t) (h : l ≠ []) :
    0 < (hidFlatten l).length := by
  cases l with
  | nil => exact absurd rfl h
  | cons it rest => simp [hidFlatten, flattenItem]

/-- C5: in the Reset state — initially, and after any hidResetReportDescriptor
call on any state, regardless of the calls that preceded it —
hidGetReportDescriptor returns null and both hidGetReportDescriptorLength and
hidGetReportLength return 0; after any hidPrepareReportDescriptor call on a
state whose item sequence is non-empty and contains a Main item with a
non-zero size field (both facts hold for the externally supplied layout), the
pointer is non-null and both lengths are positive. -/
theorem hid_lifecycle_observables
    (items : List USB_HID_Short_Item_t) (s : HidState)
    (hne : s.items ≠ []) (hmain : 0 < hidMainBits s.items) :
    (hidGetReportDescriptor (hidInitState items) = none
      ∧ hidGetReportDescriptorLength (hidInitState items) = 0
      ∧ hidGetReportLength (hidInitState items) = 0)
    ∧ (∀ t : HidState,
        hidGetReportDescriptor (hidResetReportDescriptor t) = none
        ∧ hidGetReportDescriptorLength (hidResetReportDescriptor t) = 0
        ∧ hidGetReportLength (hidResetReportDescriptor t) = 0)
    ∧ ((hidGetReportDescriptor (hidPrepareReportDescriptor s)).isSome = true
      ∧ 0 < hidGetReportDescriptorLength (hidPrepareReportDescriptor s)
      ∧ 0 < hidGetReportLength (hidPrepareReportDescriptor s)) := by
  refine ⟨⟨rfl, rfl, rfl⟩, fun t => ⟨rfl, rfl, rfl⟩, rfl, ?_, ?_⟩
  · show 0 < (hidFlatten s.items).length
    exact hidFlatten_length_pos s.items hne
  · show 0 < (hidMainBits s.items + 7) / 8
    exact Nat.div_pos (by omega) (by omega)

/-- Witness for C5 at the concrete device configuration. -/
theorem hid_lifecycle_observables_witness :
    (hidGetReportDescriptor hidTestInit = none
      ∧ hidGetReportDescriptorLength hidTestInit = 0
      ∧ hidGetReportLength hidTestInit = 0)
    ∧ ((hidGetReportDescriptor (hidPrepareReportDescriptor hidTestInit)).isSome = true
      ∧ 0 < hidGetReportDescriptorLength (hidPrepareReportDescriptor hidTestInit)
      ∧ 0 < hidGetReportLength (hidPrepareReportDescriptor hidTestInit)) := by
  have h := hid_lifecycle_observables hidReportDescriptorItems hidTestInit
    (by decide) (by decide)
  exact ⟨h.1, h.2.2⟩

/-- C6: every failing operation is atomic on observable state: a
hidSetReportItem call that returns any non-GOOD status leaves the whole
state unchanged, and a hidGetReportItem call that returns BAD_LOCATION
leaves all of its output parameters at the caller-supplied values. -/
theorem hid_failure_atomicity
    (reg : List HidRegEntry) (s : HidState) (byte bit page header : Nat)
    (data : List Nat) (p0 h0 d0 d1 : Nat) :
    ((hidSetReportItem reg s byte bit page header data).1 ≠ HID_STATUS_GOOD →
      (hidSetReportItem reg s byte bit page header data).2 = s)
    ∧ ((hidGetReportItem reg s byte bit p0 h0 d0 d1).status = HID_STATUS_BAD_LOCATION →
      hidGetReportItem reg s byte bit p0 h0 d0 d1
        = ⟨HID_STATUS_BAD_LOCATION, p0, h0, d0, d1⟩) := by
  constructor
  · intro h
    unfold hidSetReportItem at h ⊢
    split at h
    next hok => rw [if_pos hok]
    next hok =>
      rw [if_neg hok]
      split at h
      next hfind => rfl
      next e hfind =>
        split at h
        next hpage => simp [hpage]
        next hpage =>
          split at h
          next huse => simp [not_not.mp hpage, huse]
          next huse => exact absurd rfl h
  · intro h
    unfold hidGetReportItem at h ⊢
    split at h
    next hfind => rfl
    next e hfind =>
      simp [HID_STATUS_GOOD, HID_STATUS_BAD_LOCATION] at h

/-- Witness for C6 at the non-configurable location (0, 7): a failing set
leaves the state unchanged and a failing get returns the caller-supplied
output values. -/
theorem hid_failure_atomicity_witness :
    (hidSetReportItem hidConfigurableItems hidTestInit 0 7 12 8 []).2 = hidTestInit
    ∧ hidGetReportItem hidConfigurableItems hidTestInit 0 7 68 170 186 209
        = ⟨HID_STATUS_BAD_LOCATION, 68, 170, 186, 209⟩ :=
  ⟨(hid_failure_atomicity hidConfigurableItems hidTestInit 0 7 12 8 [] 68 170 186 209).1
      (by decide),
   (hid_failure_atomicity hidConfigurableItems hidTestInit 0 7 12 8 [] 68 170 186 209).2
      (by decide)⟩

/-- In the modelled device registry, byte 1 is the only byte with an entry at
bit position 7. -/
theorem hidFindEntry_bit7_none (byte : Nat) (hb : byte ≠ 1) :
    hidFindEntry hidConfigurableItems byte 7 = none := by
  unfold hidFindEntry
  rw [List.find?_eq_none]
  intro e he
  simp [hidConfigurableItems] at he
  rcases he with rfl | rfl | rfl | rfl
  · simp
  · simp
  · simp
  · simp [beq_iff_eq]
    omega

/-- C7 counterexample: in the modelled device registry, the location
(byte 1, bit 7) is configurable — MAX_VALID_BIT is 7 and the unit test
test_max_bit_hidSetReportItem notes that only byte 1 has bit 7 not reserved
and expects GOOD there — so a set call with bit argument 7 does not return
BAD_LOCATION at every byte position. -/
theorem hid_bit7_counterexample :
    (hidSetReportItem hidConfigurableItems hidTestInit 1 7 CONSUMER_CONTROL_PAGE
        (construct_usage_header 0) []).1 = HID_STATUS_GOOD
    ∧ HID_STATUS_GOOD ≠ HID_STATUS_BAD_LOCATION := by
  decide

/-- C7 (amended): the 3-bit iBit field makes bit positions 0 through 7
representable (bit 7 of the packed location byte, not bit position 7, is the
reserved bit); a call with bit argument 7 is valid exactly when the registry
enumerates it: in the modelled device registry byte 1 is the only byte with
bit 7 configurable, so hidGetReportItem and hidSetReportItem with bit 7 at
every byte other than 1 return BAD_LOCATION (for a set, provided the header
passes validation), while a set at (1, 7) returns GOOD. -/
theorem hid_bit7_registry
    (s : HidState) (byte page header : Nat) (data : List Nat)
    (p0 h0 d0 d1 : Nat) (hb : byte ≠ MAX_VALID_BYTE)
    (hok : hidIsUsageHeaderOK header = true) :
    (hidGetReportItem hidConfigurableItems s byte 7 p0 h0 d0 d1).status
        = HID_STATUS_BAD_LOCATION
    ∧ (hidSetReportItem hidConfigurableItems s byte 7 page header data).1
        = HID_STATUS_BAD_LOCATION
    ∧ (hidSetReportItem hidConfigurableItems hidTestInit MAX_VALID_BYTE MAX_VALID_BIT
        CONSUMER_CONTROL_PAGE (construct_usage_header 0) []).1 = HID_STATUS_GOOD := by
  have hfind := hidFindEntry_bit7_none byte hb
  refine ⟨?_, ?_, by decide⟩
  · unfold hidGetReportItem
    rw [hfind]
  · unfold hidSetReportItem
    rw [if_neg (by simp [hok]), hfind]

/-- Witness for C7 (amended) at byte 0 with a valid size-0 Usage header. -/
theorem hid_bit7_registry_witness :
    (hidGetReportItem hidConfigurableItems hidTestInit 0 7 68 170 186 209).status
        = HID_STATUS_BAD_LOCATION
    ∧ (hidSetReportItem hidConfigurableItems hidTestInit 0 7 12 8 []).1
        = HID_STATUS_BAD_LOCATION
    ∧ (hidSetReportItem hidConfigurableItems hidTestInit MAX_VALID_BYTE MAX_VALID_BIT
        CONSUMER_CONTROL_PAGE (construct_usage_header 0) []).1 = HID_STATUS_GOOD := by
  have h := hid_bit7_registry hidTestInit 0 12 8 [] 68 170 186 209 (by decide) (by decide)
  exact ⟨h.1, h.2.1, h.2.2⟩

/-- C8: hidSetReportItem never changes the Prepared/Reset dimension of the
state: for every call, successful or not, the prepared flag, the flattened
buffer and both length observables are exactly those of the prior state — a
set while Reset leaves hidGetReportDescriptor returning null with both
lengths 0, and a set while Prepared leaves the previously flattened buffer
and lengths in place, stale until the next hidPrepareReportDescriptor. -/
theorem hidSetReportItem_preserves_lifecycle
    (reg : List HidRegEntry) (s : HidState) (byte bit page header : Nat)
    (data : List Nat) :
    hidGetReportDescriptor (hidSetReportItem reg s byte bit page header data).2
      = hidGetReportDescriptor s
    ∧ hidGetReportDescriptorLength (hidSetReportItem reg s byte bit page header data).2
      = hidGetReportDescriptorLength s
    ∧ hidGetReportLength (hidSetReportItem reg s byte bit page header data).2
      = hidGetReportLength s
    ∧ ((hidSetReportItem reg s byte bit page header data).2).prepared = s.prepared := by
  have hkey : (hidSetReportItem reg s byte bit page header data).2.prepared = s.prepared
      ∧ (hidSetReportItem reg s byte bit page header data).2.buffer = s.buffer
      ∧ (hidSetReportItem reg s byte bit page header data).2.reportLen = s.reportLen := by
    unfold hidSetReportItem
    split
    · exact ⟨rfl, rfl, rfl⟩
    · split
      · exact ⟨rfl, rfl, rfl⟩
      · split
        · exact ⟨rfl, rfl, rfl⟩
        · split
          · exact ⟨rfl, rfl, rfl⟩
          · exact ⟨rfl, rfl, rfl⟩
  obtain ⟨h1, h2, h3⟩ := hkey
  unfold hidGetReportDescriptor hidGetReportDescriptorLength hidGetReportLength
  rw [h1, h2, h3]
  exact ⟨rfl, rfl, rfl, rfl⟩

/-- C9: hidSetReportItem reads at most min(bSize, HID_REPORT_ITEM_MAX_SIZE)
bytes of the data argument — its entire result depends only on those bytes,
so it reads none when the size field is 0 — and a NULL (empty) data argument
together with a size-0 header is accepted: under a valid location, a
matching page and an idle descriptor such a call returns GOOD.  In the C
source no bound check relates the data array to the size field (the header
warns the caller instead), so this dependency bound is exactly the caller
precondition for the absence of out-of-bounds reads. -/
theorem hidSetReportItem_data_access
    (reg : List HidRegEntry) (s : HidState) (byte bit page header : Nat)
    (da db : List Nat)
    (hagree : ∀ i, i < min (itemSize header) HID_REPORT_ITEM_MAX_SIZE →
        da.getD i 0 = db.getD i 0) :
    hidSetReportItem reg s byte bit page header da
      = hidSetReportItem reg s byte bit page header db
    ∧ (itemSize header = 0 → hidIsUsageHeaderOK header = true →
       ∀ e, hidFindEntry reg byte bit = some e → page = e.page → s.inUse = false →
        (hidSetReportItem reg s byte bit page header []).1 = HID_STATUS_GOOD) := by
  constructor
  · unfold hidSetReportItem
    split
    · rfl
    · split
      · rfl
      next e hfind =>
        split
        · rfl
        · split
          · rfl
          · have h0 : 0 < itemSize header → da[0]?.getD 0 = db[0]?.getD 0 := by
              intro hp
              have h := hagree 0 (by show 0 < min (itemSize header) 2; omega)
              simpa [List.getD_eq_getElem?_getD] using h
            have h1 : 1 < itemSize header → da[1]?.getD 0 = db[1]?.getD 0 := by
              intro hp
              have h := hagree 1 (by show 1 < min (itemSize header) 2; omega)
              simpa [List.getD_eq_getElem?_getD] using h
            unfold hidWriteItem
            by_cases hp0 : 0 < itemSize header
            · by_cases hp1 : 1 < itemSize header
              · simp [hp0, hp1, h0 hp0, h1 hp1]
              · simp [hp0, hp1, h0 hp0]
            · have hp1 : ¬ 1 < itemSize header := by omega
              simp [hp0, hp1]
  · intro hsz hok e hfind hpage huse
    unfold hidSetReportItem
    rw [if_neg (by simp [hok]), hfind]
    simp [hpage, huse]

/-- Witness for C9: at the configurable location (0, 0) a size-1 set ignores
the second data byte, and a size-0 set with NULL (empty) data returns
GOOD. -/
theorem hidSetReportItem_data_access_witness :
    hidSetReportItem hidConfigurableItems hidTestInit 0 0 12 9 [231, 99]
      = hidSetReportItem hidConfigurableItems hidTestInit 0 0 12 9 [231, 5]
    ∧ (hidSetReportItem hidConfigurableItems hidTestInit 0 0 12 8 []).1
        = HID_STATUS_GOOD :=
  ⟨(hidSetReportItem_data_access hidConfigurableItems hidTestInit 0 0 12 9
      [231, 99] [231, 5] (by decide)).1,
   (hidSetReportItem_data_access hidConfigurableItems hidTestInit 0 0 12 8
      [] [] (fun i hi => rfl)).2 (by decide) (by decide)
      ⟨0, 0, CONSUMER_CONTROL_PAGE, 1⟩ (by decide) (by decide) (by decide)⟩

/-- C10: for every location present in the Control Registry, hidGetReportItem
returns GOOD and writes both data output bytes regardless of the stored
item's size field: each output equals the corresponding stored byte, so the
trailing byte not covered by the size field is read back as its stored value
and the caller must always supply a two byte output array. -/
theorem hidGetReportItem_copies_both_bytes
    (reg : List HidRegEntry) (s : HidState) (byte bit p0 h0 d0 d1 : Nat)
    (e : HidRegEntry) (hfind : hidFindEntry reg byte bit = some e) :
    (hidGetReportItem reg s byte bit p0 h0 d0 d1).status = HID_STATUS_GOOD
    ∧ (hidGetReportItem reg s byte bit p0 h0 d0 d1).data0
        = (s.items.getD e.slot ⟨0, 0, 0, 0⟩).data0
    ∧ (hidGetReportItem reg s byte bit p0 h0 d0 d1).data1
        = (s.items.getD e.slot ⟨0, 0, 0, 0⟩).data1 := by
  rw [hidGetReportItem_found reg s byte bit p0 h0 d0 d1 e hfind]
  exact ⟨rfl, rfl, rfl⟩

/-- Witness for C10 at the registered location (1, 7), whose backing item has
size field 1: the get returns the stored byte 0xEA and the never-written
trailing byte as 0. -/
theorem hidGetReportItem_copies_both_bytes_witness :
    (hidGetReportItem hidConfigurableItems hidTestInit 1 7 255 255 255 255).status
        = HID_STATUS_GOOD
    ∧ (hidGetReportItem hidConfigurableItems hidTestInit 1 7 255 255 255 255).data0 = 234
    ∧ (hidGetReportItem hidConfigurableItems hidTestInit 1 7 255 255 255 255).data1 = 0 := by
  have h := hidGetReportItem_copies_both_bytes hidConfigurableItems hidTestInit 1 7
    255 255 255 255 ⟨1, 7, CONSUMER_CONTROL_PAGE, 4⟩ (by decide)
  exact ⟨h.1, h.2.1.trans (by decide), h.2.2.trans (by decide)⟩

end XuaHid
